import Mathlib

/-!
Verification development for the loss-prevention service.

The Go sources are shallowly embedded as Lean definitions:
* `pkg/sensor/rsp.go` — the sensor registry entry type `RSP` and antenna
  alias resolution;
* `app/lossprevention/lib.go` — the movement-trigger classifier
  `HandleDataPayload`;
* `pkg/camera` — the recording orchestrator `RecordVideoToDisk`, the
  per-cascade artifact write policy, the per-frame detection invocation,
  and the resource teardown `Close` / `safeClose`.

Go machine integers are modelled as `Int` (with explicit handling of the
panicking out-of-range slice access), Go float64 values that only ever
carry small exact quantities (fps, durations, scale fractions) as `ℚ`,
and fallible operations as `Option`.
-/

set_option autoImplicit false

namespace LossPrevention

/-! ## Sensor registry (pkg/sensor/rsp.go) -/

def DefaultFacility : String := "DEFAULT_FACILITY"

/-- Go: `type Personality string`. -/
abbrev Personality := String

def NoPersonality : Personality := "NONE"

def ExitPersonality : Personality := "EXIT"

def POS : Personality := "POS"

def FittingRoom : Personality := "FITTING_ROOM"

/-- Go struct `RSP` from pkg/sensor/rsp.go. -/
structure RSP where
  DeviceId : String
  FacilityId : String
  Personality : Personality
  Aliases : List String
  IsInDeepScan : Bool
deriving Repr, DecidableEq

/-- Go:
`func (rsp *RSP) AntennaAlias(antennaId int) string {`
`  if len(rsp.Aliases) > antennaId { return rsp.Aliases[antennaId] }`
`  else { return rsp.DeviceId + "-" + strconv.Itoa(antennaId) } }`

A Go slice access with a negative index panics at run time; the panic is
modelled as `none`, and a normal return as `some`. -/
def RSP.AntennaAlias (rsp : RSP) (antennaId : Int) : Option String :=
  if hlt : antennaId < (rsp.Aliases.length : Int) then
    if hge : 0 ≤ antennaId then
      some (rsp.Aliases.get ⟨antennaId.toNat, by omega⟩)
    else
      none
  else
    some (rsp.DeviceId ++ "-" ++ toString antennaId)

/-- Go: `func (rsp *RSP) IsExitSensor() bool { return rsp.Personality == Exit }` -/
def RSP.IsExitSensor (rsp : RSP) : Bool :=
  rsp.Personality == ExitPersonality

/-- A concrete sensor used to check the spec examples; the device id is
the one from the source comment (format example `RSP-150009-0`). -/
def exampleRSP : RSP :=
  { DeviceId := "RSP-150009"
    FacilityId := DefaultFacility
    Personality := NoPersonality
    Aliases := ["A0"]
    IsInDeepScan := false }

/-- C3: for every sensor and antenna port `i ≥ 0`, `AntennaAlias i`
returns `Aliases[i]` when `len(Aliases) > i` and otherwise the fallback
`DeviceId ++ "-" ++ i`; in particular with `Aliases = ["A0"]`,
`AntennaAlias 0 = "A0"` and `AntennaAlias 1 = "{deviceId}-1"`. -/
theorem antennaAlias_resolution (rsp : RSP) (i : Int) (hi : 0 ≤ i) :
    (i < (rsp.Aliases.length : Int) → rsp.AntennaAlias i = some (rsp.Aliases.getD i.toNat "")) ∧
    ((rsp.Aliases.length : Int) ≤ i →
      rsp.AntennaAlias i = some (rsp.DeviceId ++ "-" ++ toString i)) ∧
    exampleRSP.AntennaAlias 0 = some "A0" ∧
    exampleRSP.AntennaAlias 1 = some "RSP-150009-1" := by
  refine ⟨fun hlt => ?_, fun hge => ?_, by decide, by decide⟩
  · have hnat : i.toNat < rsp.Aliases.length := by omega
    simp [RSP.AntennaAlias, hlt, hi, List.getD_eq_getElem?_getD, List.getElem?_eq_getElem, hnat]
  · have hnlt : ¬ i < (rsp.Aliases.length : Int) := by omega
    simp [RSP.AntennaAlias, hnlt]

theorem antennaAlias_resolution_witness :
    (0 : Int) ≤ 1 ∧
      ((1 : Int) < (exampleRSP.Aliases.length : Int) →
        exampleRSP.AntennaAlias 1 = some (exampleRSP.Aliases.getD (1 : Int).toNat "")) ∧
      ((exampleRSP.Aliases.length : Int) ≤ 1 →
        exampleRSP.AntennaAlias 1 = some (exampleRSP.DeviceId ++ "-" ++ toString (1 : Int))) ∧
      exampleRSP.AntennaAlias 0 = some "A0" ∧
      exampleRSP.AntennaAlias 1 = some "RSP-150009-1" :=
  ⟨by decide, antennaAlias_resolution exampleRSP 1 (by decide)⟩

/-- C10: `AntennaAlias` is only safe for non-negative antenna ids. For a
sensor with non-empty `Aliases` and any `antennaId < 0`, the Go guard
`len(Aliases) > antennaId` holds and the slice is indexed with a negative
index, which panics (modelled as `none`) instead of producing the
fallback; for every `antennaId ≥ 0` the call returns normally. -/
theorem antennaAlias_negative_id_panics (rsp : RSP) (i : Int)
    (hne : rsp.Aliases ≠ []) (hneg : i < 0) :
    (i < (rsp.Aliases.length : Int) ∧ rsp.AntennaAlias i = none) ∧
    (∀ j : Int, 0 ≤ j → (rsp.AntennaAlias j).isSome = true) := by
  have hlt : i < (rsp.Aliases.length : Int) := by
    have : (0 : Int) ≤ (rsp.Aliases.length : Int) := Int.ofNat_nonneg _
    omega
  refine ⟨⟨hlt, ?_⟩, fun j hj => ?_⟩
  · simp [RSP.AntennaAlias, hlt, Int.not_le.mpr hneg]
  · by_cases hjlt : j < (rsp.Aliases.length : Int)
    · simp [RSP.AntennaAlias, hjlt, hj]
    · simp [RSP.AntennaAlias, hjlt]

theorem antennaAlias_negative_id_panics_witness :
    (exampleRSP.Aliases ≠ [] ∧ (-1 : Int) < 0) ∧
      (((-1 : Int) < (exampleRSP.Aliases.length : Int) ∧
          exampleRSP.AntennaAlias (-1) = none) ∧
        (∀ j : Int, 0 ≤ j → (exampleRSP.AntennaAlias j).isSome = true)) :=
  ⟨⟨by decide, by decide⟩, antennaAlias_negative_id_panics exampleRSP (-1) (by decide) (by decide)⟩

/-! ## Movement trigger classifier (app/lossprevention/lib.go) -/

def moved : String := "moved"

/-- One entry of a tag location history; `Location` is an antenna alias. -/
structure LocationHistoryEntry where
  Location : String
deriving Repr, DecidableEq

/-- The fields of the ingested tag event that `HandleDataPayload` reads. -/
structure Tag where
  Epc : String
  ProductID : String
  Event : String
  LocationHistory : List LocationHistoryEntry
deriving Repr, DecidableEq

/-- The data handed to the asynchronous recording trigger
(`go triggerRecord(edgexcontext, &tag)`). -/
structure Trigger where
  ProductID : String
  Epc : String
deriving Repr, DecidableEq

/-- Modelled from the spec: the body of the sensor registry lookup
`sensor.FindByAntennaAlias` is not among the embedded sources (only its
caller is), so the lookup is an abstract function matching the spec
contract `resolve(antennaAlias) → Sensor | not-found`. The other two
fields are the externally configured SKU and EPC regex matchers
(`config.AppConfig.SKUFilterRegex.MatchString`,
`config.AppConfig.EPCFilterRegex.MatchString`). -/
structure ClassifierEnv where
  skuMatch : String → Bool
  epcMatch : String → Bool
  findByAntennaAlias : String → Option RSP

/-- Go `HandleDataPayload` from app/lossprevention/lib.go, one loop
iteration per list element. The returned pair is (the trigger fired, the
returned error); the function body only ever executes `return nil`, and
fires at most one trigger (`go triggerRecord(...); return nil`).
The preceding `len(tag.LocationHistory) < 2` guard keeps both history
accesses in range, so they are rendered with `List.getD`. -/
def HandleDataPayload (env : ClassifierEnv) : List Tag → Option Trigger × Option String
  | [] => (none, none)
  | tag :: rest =>
    if tag.Event ≠ moved then
      HandleDataPayload env rest
    else if tag.LocationHistory.length < 2 then
      HandleDataPayload env rest
    else if ¬ env.skuMatch tag.ProductID then
      HandleDataPayload env rest
    else if ¬ env.epcMatch tag.Epc then
      HandleDataPayload env rest
    else
      match env.findByAntennaAlias (tag.LocationHistory.getD 0 ⟨""⟩).Location with
      | none => HandleDataPayload env rest
      | some rsp =>
        if ¬ rsp.IsExitSensor then
          HandleDataPayload env rest
        else
          match env.findByAntennaAlias (tag.LocationHistory.getD 1 ⟨""⟩).Location with
          | none => HandleDataPayload env rest
          | some rsp2 =>
            if rsp2.IsExitSensor then
              HandleDataPayload env rest
            else
              (some ⟨tag.ProductID, tag.Epc⟩, none)

/-- Spec-side predicate, written from the spec wording: the event is
`moved`, has at least two history entries, passes both filters, its
current location resolves to an existing Exit-role sensor, and its
previous location resolves to an existing sensor that is not Exit-role. -/
def matchesAll (env : ClassifierEnv) (tag : Tag) : Bool :=
  tag.Event == moved
  && decide (2 ≤ tag.LocationHistory.length)
  && env.skuMatch tag.ProductID
  && env.epcMatch tag.Epc
  && (match env.findByAntennaAlias (tag.LocationHistory.getD 0 ⟨""⟩).Location with
      | some rsp => rsp.IsExitSensor
      | none => false)
  && (match env.findByAntennaAlias (tag.LocationHistory.getD 1 ⟨""⟩).Location with
      | some rsp2 => !rsp2.IsExitSensor
      | none => false)

/-- C1: for every batch, `HandleDataPayload` fires at most one recording
trigger, namely for the first event in batch order that is a `moved` event
with at least two history entries, passes the SKU and EPC filters, whose
current location resolves to an existing Exit-role sensor and whose
previous location resolves to an existing non-Exit sensor; processing then
stops, and the handler always returns no error (also when nothing fires). -/
theorem handleDataPayload_eq_find (env : ClassifierEnv) (tags : List Tag) :
    HandleDataPayload env tags =
      ((tags.find? (matchesAll env)).map fun tag => ⟨tag.ProductID, tag.Epc⟩, none) := by
  induction tags with
  | nil => rfl
  | cons tag rest ih =>
    by_cases hEvent : tag.Event = moved
    · by_cases hLen : tag.LocationHistory.length < 2
      · have hm : matchesAll env tag = false := by
          simp [matchesAll, hLen, Nat.not_le.mpr hLen]
        simp [HandleDataPayload, hEvent, hLen, ih, List.find?, hm]
      · by_cases hSku : env.skuMatch tag.ProductID
        · by_cases hEpc : env.epcMatch tag.Epc
          · cases hfa0 : env.findByAntennaAlias ((tag.LocationHistory[0]?).getD (LocationHistoryEntry.mk "")).Location with
            | none =>
              have hm : matchesAll env tag = false := by
                simp [matchesAll, hfa0]
              simp [HandleDataPayload, hEvent, hLen, hSku, hEpc, hfa0, ih, List.find?, hm]
            | some rsp =>
              by_cases hExit : rsp.IsExitSensor
              · cases hfa1 : env.findByAntennaAlias ((tag.LocationHistory[1]?).getD (LocationHistoryEntry.mk "")).Location with
                | none =>
                  have hm : matchesAll env tag = false := by
                    simp [matchesAll, hfa1]
                  simp [HandleDataPayload, hEvent, hLen, hSku, hEpc, hfa0, hExit, hfa1, ih,
                    List.find?, hm]
                | some rsp2 =>
                  by_cases hExit2 : rsp2.IsExitSensor
                  · have hm : matchesAll env tag = false := by
                      simp [matchesAll, hfa1, hExit2]
                    simp [HandleDataPayload, hEvent, hLen, hSku, hEpc, hfa0, hExit, hfa1,
                      hExit2, ih, List.find?, hm]
                  · have hm : matchesAll env tag = true := by
                      simp [matchesAll, hEvent, Nat.le_of_not_lt hLen, hSku, hEpc, hfa0,
                        hExit, hfa1, hExit2]
                    simp [HandleDataPayload, hEvent, hLen, hSku, hEpc, hfa0, hExit, hfa1,
                      hExit2, List.find?, hm]
              · have hm : matchesAll env tag = false := by
                  simp [matchesAll, hfa0, hExit]
                simp [HandleDataPayload, hEvent, hLen, hSku, hEpc, hfa0, hExit, ih,
                  List.find?, hm]
          · have hm : matchesAll env tag = false := by
              simp [matchesAll, hEpc]
            simp [HandleDataPayload, hEvent, hLen, hSku, hEpc, ih, List.find?, hm]
        · have hm : matchesAll env tag = false := by
            simp [matchesAll, hSku]
          simp [HandleDataPayload, hEvent, hLen, hSku, ih, List.find?, hm]
    · have hm : matchesAll env tag = false := by
        simp [matchesAll, hEvent]
      simp [HandleDataPayload, hEvent, ih, List.find?, hm]

/-! ## Recording orchestrator (pkg/camera, src/unnamed/part_000) -/

/-- Go conversion `int(x)` of a float truncates toward zero. -/
def goTrunc (q : ℚ) : Int :=
  if 0 ≤ q then ⌊q⌋ else ⌈q⌉

/-- Go `math.Round` rounds half away from zero. -/
def goRound (q : ℚ) : Int :=
  if 0 ≤ q then ⌊q + 1 / 2⌋ else ⌈q - 1 / 2⌉

/-- Go struct `DetectParams` (scale fractions kept exact in `ℚ`). The Go
zero value of the struct has every field zero. -/
structure DetectParams where
  scale : ℚ
  minNeighbors : Int
  flags : Int
  minScaleX : ℚ
  minScaleY : ℚ
  maxScaleX : ℚ
  maxScaleY : ℚ
deriving Repr, DecidableEq

/-- The Go zero value `DetectParams{}` compared against with
`reflect.DeepEqual`. -/
def DetectParams.zero : DetectParams :=
  ⟨0, 0, 0, 0, 0, 0, 0⟩

/-- The two distinct gocv entry points the per-frame detection code uses:
`DetectMultiScale(img)` passes no explicit parameters (the engine falls
back to its default scale factor, min-neighbors and flags and no window
size bounds), while `DetectMultiScaleWithParams` passes the cascade's
scale factor, min-neighbors, flags and explicit min/max window sizes. -/
inductive DetectCall where
  | detectMultiScale
  | detectMultiScaleWithParams (scale : ℚ) (minNeighbors : Int) (flags : Int)
      (minSize : Int × Int) (maxSize : Int × Int)
deriving Repr, DecidableEq

/-- Lines 443-448 of the frame loop: the engine invocation chosen for one
cascade on one frame, where `w`/`ht` are `recorder.width` and
`recorder.height`. -/
def detectInvocation (w ht : Int) (params : DetectParams) : DetectCall :=
  if params = DetectParams.zero then
    DetectCall.detectMultiScale
  else
    DetectCall.detectMultiScaleWithParams params.scale params.minNeighbors params.flags
      (goTrunc ((w : ℚ) * params.minScaleX), goTrunc ((ht : ℚ) * params.minScaleY))
      (goTrunc ((w : ℚ) * params.maxScaleX), goTrunc ((ht : ℚ) * params.maxScaleY))

/-- The per-session cascade record built by `AsNewCascade`: its immutable
name and detection parameters, and the two runtime counters `found` (the
high-water mark of detections seen in a single frame this session) and
`written` (how many region images were already written to disk). -/
structure Cascade where
  name : String
  detectParams : DetectParams
  found : Nat
  written : Nat
deriving Repr, DecidableEq

/-- One `writeFrameRegion` request: the file written is
`{cascadeName}.{fileIndex}.jpg` for a region of frame `frame`. -/
structure ArtifactWrite where
  cascadeName : String
  frame : Nat
  fileIndex : Nat
deriving Repr, DecidableEq

/-- Lines 451-462 of the frame loop, for one cascade on one frame where
the engine returned `count` rectangles:
`if len(rects) > 0 { if cascade.found < len(rects) {`
`  cascade.found = len(rects)`
`  if config.AppConfig.SaveObjectDetectionsToDisk {`
`    for i := range rects { writeFrameRegion(name.(i+cascade.written).jpg) }`
`    cascade.written += cascade.found } } }` -/
def cascadeStep (save : Bool) (frameIdx : Nat) (count : Nat) (c : Cascade) :
    Cascade × List ArtifactWrite :=
  if 0 < count then
    if c.found < count then
      if save then
        ({ c with found := count, written := c.written + count },
          (List.range count).map fun i => ⟨c.name, frameIdx, i + c.written⟩)
      else
        ({ c with found := count }, [])
    else
      (c, [])
  else
    (c, [])

/-- The largest detection count among the first `j` frames (0 if none). -/
def prefixMax : List Nat → Nat → Nat
  | _, 0 => 0
  | [], _ + 1 => 0
  | c :: rest, j + 1 => max c (prefixMax rest j)

/-- One cascade run over the per-frame detection counts of a session,
starting at frame index `idx`; returns the final cascade counters and all
region write requests issued. -/
def cascadeRunFrom (save : Bool) : Nat → Cascade → List Nat → Cascade × List ArtifactWrite
  | _, c, [] => (c, [])
  | idx, c, count :: rest =>
    let step := cascadeStep save idx count c
    let next := cascadeRunFrom save (idx + 1) step.1 rest
    (next.1, step.2 ++ next.2)

/-- One cascade run over a whole session, frames numbered from 0. -/
def cascadeRun (save : Bool) (c : Cascade) (counts : List Nat) : Cascade × List ArtifactWrite :=
  cascadeRunFrom save 0 c counts

/-- One engine invocation as recorded in a session trace. -/
structure EngineCall where
  frame : Nat
  cascadeName : String
  call : DetectCall
deriving Repr, DecidableEq

/-- Lines 440-473 of the frame loop: iterate over the active cascades on
one (non-empty) frame; `counts` lists, per cascade, how many rectangles
the external engine returns. Produces the updated cascade counters, the
region write requests, and the engine invocations made. (The enclosing
`if len(recorder.cascades) > 0` guard is redundant here: with no cascades
nothing is produced.) -/
def cascadesStep (w ht : Int) (save : Bool) (idx : Nat) :
    List Nat → List Cascade → List Cascade × List ArtifactWrite × List EngineCall
  | _, [] => ([], [], [])
  | counts, c :: cs =>
    let call : EngineCall := ⟨idx, c.name, detectInvocation w ht c.detectParams⟩
    let step := cascadeStep save idx (counts.headD 0) c
    let rest := cascadesStep w ht save idx counts.tail cs
    (step.1 :: rest.1, step.2 ++ rest.2.1, call :: rest.2.2)

/-- Per-iteration behavior of the external collaborators: whether
`webcam.Read` returned ok, whether the frame read was empty, whether the
video writer's `Write` returned an error, how many rectangles the engine
reports per active cascade, and the key `window.WaitKey` reports while
the live view is shown. -/
structure FrameEvent where
  readOk : Bool
  frameEmpty : Bool
  writeFails : Bool
  detections : List Nat
  key : Int
deriving Repr, DecidableEq

/-- Line 530: `if key == 27 || key == 'q' || key == 'Q'` (`q` is 113 and
`Q` is 81). -/
def isCancelKey (key : Int) : Bool :=
  key == 27 || key == 113 || key == 81

/-- Observable side effects of a recording session: frames appended to
the output video, logged video write errors, frames skipped as empty,
still snapshots written (frame index and file name), engine invocations,
region artifact writes, and frames rendered to the live-view window. -/
structure SessionTrace where
  videoWrites : List Nat
  writeErrors : List Nat
  skippedEmpty : List Nat
  stills : List (Nat × String)
  engineCalls : List EngineCall
  artifacts : List ArtifactWrite
  displayed : List Nat
deriving Repr, DecidableEq

def SessionTrace.empty : SessionTrace :=
  ⟨[], [], [], [], [], [], []⟩

def SessionTrace.app (a b : SessionTrace) : SessionTrace :=
  ⟨a.videoWrites ++ b.videoWrites, a.writeErrors ++ b.writeErrors,
    a.skippedEmpty ++ b.skippedEmpty, a.stills ++ b.stills,
    a.engineCalls ++ b.engineCalls, a.artifacts ++ b.artifacts,
    a.displayed ++ b.displayed⟩

/-- The errors `RecordVideoToDisk` can return. -/
inductive CamError where
  | openFailed
  | writerOpenFailed
  | readFailed
deriving Repr, DecidableEq

/-- The outcome of `RecordVideoToDisk`: the `(recorded, error)` pair
returned to the caller, how many loop iterations were entered, the trace
of observable effects, and the final live-view flag and cascade
counters. -/
structure LoopOut where
  recorded : Bool
  error : Option CamError
  iterations : Nat
  trace : SessionTrace
  liveView : Bool
  cascades : List Cascade
deriving Repr, DecidableEq

/-- The recorder configuration the frame loop reads:
`recorder.frameCount`, `recorder.width`, `recorder.height` and
`config.AppConfig.SaveObjectDetectionsToDisk`. -/
structure RecorderCfg where
  frameCount : Nat
  width : Int
  height : Int
  saveDetections : Bool
deriving Repr, DecidableEq

/-- Lines 405-536: the frame loop
`for i := 0; i < recorder.frameCount; i++`, with `r` iterations left and
`i` the current index. Per iteration, in source order: a failed
`webcam.Read` returns `(false, error)` at once; an empty frame is logged
and the iteration skipped; the frame is appended to the video (a write
error is logged only); the first / middle / last snapshot switch runs;
the cascades process the (downscaled) frame; if the live view is still
on, the frame is shown and a cancel key turns the live view off (closing
only the window). -/
def frameLoop (cfg : RecorderCfg) (ev : Nat → FrameEvent) :
    Nat → Nat → Bool → List Cascade → LoopOut
  | 0, _, live, cs =>
    { recorded := true, error := none, iterations := 0, trace := .empty,
      liveView := live, cascades := cs }
  | r + 1, i, live, cs =>
    let e := ev i
    if ¬ e.readOk then
      { recorded := false, error := some .readFailed, iterations := 1, trace := .empty,
        liveView := live, cascades := cs }
    else if e.frameEmpty then
      let rest := frameLoop cfg ev r (i + 1) live cs
      { rest with
        iterations := rest.iterations + 1
        trace := SessionTrace.app ⟨[], [], [i], [], [], [], []⟩ rest.trace }
    else
      let stills : List (Nat × String) :=
        if i = 0 then [(i, "frame.first.jpg"), (i, "thumb.jpg")]
        else if i = cfg.frameCount / 2 then [(i, "frame.middle.jpg")]
        else if i = cfg.frameCount - 1 then [(i, "frame.last.jpg")]
        else []
      let det := cascadesStep cfg.width cfg.height cfg.saveDetections i e.detections cs
      let tr : SessionTrace :=
        ⟨[i], if e.writeFails then [i] else [], [], stills, det.2.2, det.2.1,
          if live then [i] else []⟩
      let live1 := if live && isCancelKey e.key then false else live
      let rest := frameLoop cfg ev r (i + 1) live1 det.1
      { rest with
        iterations := rest.iterations + 1
        trace := SessionTrace.app tr rest.trace }

/-- External collaborator behavior for one call of `RecordVideoToDisk`:
whether `cameraSemaphone.TryAcquire(1)` succeeds (it fails exactly when
another recording holds the semaphore), whether `recorder.Open()`
succeeds, whether `gocv.VideoWriterFile` succeeds, and the per-iteration
frame events. -/
structure CameraEnv where
  tryAcquireOk : Bool
  openOk : Bool
  writerOk : Bool
  events : Nat → FrameEvent

/-- Lines 355-541: `RecordVideoToDisk`. A failed non-blocking semaphore
try-acquire is logged as a warning and returns `(false, nil)` without
running any part of the session; a failed `Open` or a failed video
writer open return `(false, error)`; otherwise
`frameCount = int(math.Round(fps * seconds))` and the frame loop runs.
`width`, `ht`, `save` and `cascades` are the recorder fields loaded from
configuration at `Open` time. -/
def RecordVideoToDisk (env : CameraEnv) (fps seconds : ℚ) (liveView : Bool)
    (width ht : Int) (save : Bool) (cascades : List Cascade) : LoopOut :=
  if ¬ env.tryAcquireOk then
    { recorded := false, error := none, iterations := 0, trace := .empty,
      liveView := liveView, cascades := cascades }
  else if ¬ env.openOk then
    { recorded := false, error := some .openFailed, iterations := 0, trace := .empty,
      liveView := liveView, cascades := cascades }
  else if ¬ env.writerOk then
    { recorded := false, error := some .writerOpenFailed, iterations := 0, trace := .empty,
      liveView := liveView, cascades := cascades }
  else
    let frameCount := (goRound (fps * seconds)).toNat
    frameLoop ⟨frameCount, width, ht, save⟩ env.events frameCount 0 liveView cascades

/-! ## Per-frame engine invocation (C7) -/

/-- C7: on a frame, every active cascade is invoked exactly once, in
order; a cascade whose `detectParams` is the Go zero value goes through
plain `DetectMultiScale` — only the image, no explicit parameters, so
the engine's own default scale factor, min-neighbors and flags apply —
while any other cascade goes through `DetectMultiScaleWithParams` with
its scale factor, min-neighbors and flags plus explicit min/max window
sizes `widthFraction × width` and `heightFraction × height`. -/
theorem cascadesStep_engine_invocation (w ht : Int) (save : Bool) (idx : Nat)
    (counts : List Nat) (cs : List Cascade) :
    (cascadesStep w ht save idx counts cs).2.2 =
      cs.map (fun c => ⟨idx, c.name, detectInvocation w ht c.detectParams⟩) ∧
    (∀ c ∈ cs,
      (c.detectParams = DetectParams.zero →
        detectInvocation w ht c.detectParams = DetectCall.detectMultiScale) ∧
      (c.detectParams ≠ DetectParams.zero →
        detectInvocation w ht c.detectParams =
          DetectCall.detectMultiScaleWithParams c.detectParams.scale
            c.detectParams.minNeighbors c.detectParams.flags
            (goTrunc (c.detectParams.minScaleX * (w : ℚ)),
              goTrunc (c.detectParams.minScaleY * (ht : ℚ)))
            (goTrunc (c.detectParams.maxScaleX * (w : ℚ)),
              goTrunc (c.detectParams.maxScaleY * (ht : ℚ))))) := by
  constructor
  · induction cs generalizing counts with
    | nil => rfl
    | cons c rest ih => simp [cascadesStep, ih]
  · intro c _
    constructor
    · intro hz
      simp [detectInvocation, hz]
    · intro hz
      simp [detectInvocation, hz, mul_comm]

/-- A face cascade left at the zero detection parameters. -/
def faceCascadeZero : Cascade :=
  ⟨"face", DetectParams.zero, 0, 0⟩

theorem cascadesStep_engine_invocation_witness :
    (cascadesStep 640 480 true 0 [2] [faceCascadeZero]).2.2 =
      [⟨0, "face", DetectCall.detectMultiScale⟩] := by
  have h := cascadesStep_engine_invocation 640 480 true 0 [2] [faceCascadeZero]
  have hz := (h.2 faceCascadeZero (List.mem_singleton.mpr rfl)).1 rfl
  rw [h.1]
  simp only [List.map_cons, List.map_nil, hz]
  rfl

/-! ## Detection artifact write policy (C6) -/

theorem cascadeStep_found_eq (save : Bool) (idx count : Nat) (c : Cascade) :
    (cascadeStep save idx count c).1.found = max c.found count := by
  unfold cascadeStep
  split_ifs <;> simp <;> omega

theorem cascadeStep_written_le (save : Bool) (idx count : Nat) (c : Cascade) :
    c.written ≤ (cascadeStep save idx count c).1.written := by
  unfold cascadeStep
  split_ifs <;> simp

theorem cascadeStep_writes (save : Bool) (idx count : Nat) (c : Cascade) :
    ∀ wr ∈ (cascadeStep save idx count c).2,
      wr.frame = idx ∧ c.written ≤ wr.fileIndex ∧
        wr.fileIndex < (cascadeStep save idx count c).1.written := by
  unfold cascadeStep
  split_ifs <;> intro wr hwr <;> simp only [List.mem_map, List.mem_range] at hwr
  case _ =>
    obtain ⟨i, hi, rfl⟩ := hwr
    refine ⟨rfl, by simp, by simp; omega⟩
  all_goals simp at hwr

theorem cascadeStep_writes_nonempty_iff (save : Bool) (idx count : Nat) (c : Cascade) :
    (cascadeStep save idx count c).2 ≠ [] ↔ (save = true ∧ c.found < count) := by
  unfold cascadeStep
  split_ifs <;> simp_all <;> omega

theorem cascadeStep_sorted (save : Bool) (idx count : Nat) (c : Cascade) :
    List.Sorted (· < ·) ((cascadeStep save idx count c).2.map ArtifactWrite.fileIndex) := by
  unfold cascadeStep
  split_ifs <;> simp only [List.map_map, List.map_nil, List.sorted_nil]
  refine List.Pairwise.map _ (fun a b hab => ?_) (List.sorted_lt_range count)
  simpa [Function.comp] using Nat.add_lt_add_right hab c.written

theorem cascadeRunFrom_written_le (save : Bool) :
    ∀ (counts : List Nat) (idx : Nat) (c : Cascade),
      c.written ≤ (cascadeRunFrom save idx c counts).1.written := by
  intro counts
  induction counts with
  | nil => intro idx c; simp [cascadeRunFrom]
  | cons count rest ih =>
    intro idx c
    calc c.written ≤ (cascadeStep save idx count c).1.written :=
          cascadeStep_written_le save idx count c
      _ ≤ _ := ih (idx + 1) (cascadeStep save idx count c).1

theorem cascadeRunFrom_frame_ge (save : Bool) :
    ∀ (counts : List Nat) (idx : Nat) (c : Cascade),
      ∀ wr ∈ (cascadeRunFrom save idx c counts).2, idx ≤ wr.frame := by
  intro counts
  induction counts with
  | nil => intro idx c wr hwr; simp [cascadeRunFrom] at hwr
  | cons count rest ih =>
    intro idx c wr hwr
    simp only [cascadeRunFrom, List.mem_append] at hwr
    rcases hwr with hwr | hwr
    · exact le_of_eq (cascadeStep_writes save idx count c wr hwr).1.symm
    · exact le_trans (Nat.le_succ idx) (ih (idx + 1) _ wr hwr)

theorem cascadeRunFrom_bounds (save : Bool) :
    ∀ (counts : List Nat) (idx : Nat) (c : Cascade),
      List.Sorted (· < ·) ((cascadeRunFrom save idx c counts).2.map ArtifactWrite.fileIndex) ∧
      ∀ wr ∈ (cascadeRunFrom save idx c counts).2,
        c.written ≤ wr.fileIndex ∧ wr.fileIndex < (cascadeRunFrom save idx c counts).1.written := by
  intro counts
  induction counts with
  | nil =>
    intro idx c
    refine ⟨by simp [cascadeRunFrom], ?_⟩
    intro wr hwr
    simp [cascadeRunFrom] at hwr
  | cons count rest ih =>
    intro idx c
    obtain ⟨ihSorted, ihBounds⟩ := ih (idx + 1) (cascadeStep save idx count c).1
    have hstep := cascadeStep_writes save idx count c
    have hwle := cascadeRunFrom_written_le save rest (idx + 1) (cascadeStep save idx count c).1
    constructor
    · simp only [cascadeRunFrom, List.map_append]
      refine List.pairwise_append.mpr ⟨cascadeStep_sorted save idx count c, ihSorted, ?_⟩
      intro a ha b hb
      simp only [List.mem_map] at ha hb
      obtain ⟨wa, hwa, rfl⟩ := ha
      obtain ⟨wb, hwb, rfl⟩ := hb
      exact lt_of_lt_of_le (hstep wa hwa).2.2 (ihBounds wb hwb).1
    · intro wr hwr
      simp only [cascadeRunFrom, List.mem_append] at hwr
      rcases hwr with hwr | hwr
      · refine ⟨(hstep wr hwr).2.1, ?_⟩
        simp only [cascadeRunFrom]
        exact lt_of_lt_of_le (hstep wr hwr).2.2 hwle
      · refine ⟨le_trans (cascadeStep_written_le save idx count c) (ihBounds wr hwr).1, ?_⟩
        simp only [cascadeRunFrom]
        exact (ihBounds wr hwr).2

theorem cascadeRunFrom_frames (save : Bool) :
    ∀ (counts : List Nat) (idx : Nat) (c : Cascade) (j : Nat),
      (∃ wr ∈ (cascadeRunFrom save idx c counts).2, wr.frame = idx + j) ↔
        (save = true ∧ j < counts.length ∧
          max c.found (prefixMax counts j) < counts.getD j 0) := by
  intro counts
  induction counts with
  | nil =>
    intro idx c j
    simp [cascadeRunFrom, prefixMax]
  | cons count rest ih =>
    intro idx c j
    cases j with
    | zero =>
      simp only [cascadeRunFrom, List.mem_append, prefixMax, Nat.add_zero, List.getD_cons_zero]
      constructor
      · rintro ⟨wr, hwr | hwr, hframe⟩
        · have hne : (cascadeStep save idx count c).2 ≠ [] := by
            intro hnil
            rw [hnil] at hwr
            simp at hwr
          obtain ⟨hsave, hfound⟩ := (cascadeStep_writes_nonempty_iff save idx count c).mp hne
          exact ⟨hsave, by simp, by simpa using hfound⟩
        · have := cascadeRunFrom_frame_ge save rest (idx + 1) (cascadeStep save idx count c).1 wr hwr
          omega
      · rintro ⟨hsave, _, hfound⟩
        have hfound2 : c.found < count := by simpa using hfound
        have hne := (cascadeStep_writes_nonempty_iff save idx count c).mpr ⟨hsave, hfound2⟩
        obtain ⟨wr, hwr⟩ := List.exists_mem_of_ne_nil _ hne
        exact ⟨wr, Or.inl hwr, (cascadeStep_writes save idx count c wr hwr).1⟩
    | succ j =>
      have hshift :
          (∃ wr ∈ (cascadeRunFrom save idx c (count :: rest)).2, wr.frame = idx + (j + 1)) ↔
            (∃ wr ∈ (cascadeRunFrom save (idx + 1) (cascadeStep save idx count c).1 rest).2,
              wr.frame = (idx + 1) + j) := by
        simp only [cascadeRunFrom, List.mem_append]
        constructor
        · rintro ⟨wr, hwr | hwr, hframe⟩
          · have := (cascadeStep_writes save idx count c wr hwr).1
            omega
          · exact ⟨wr, hwr, by omega⟩
        · rintro ⟨wr, hwr, hframe⟩
          exact ⟨wr, Or.inr hwr, by omega⟩
      rw [hshift, ih (idx + 1) (cascadeStep save idx count c).1 j]
      rw [cascadeStep_found_eq]
      simp only [prefixMax, List.length_cons, List.getD_cons_succ]
      constructor
      · rintro ⟨hsave, hlen, hmax⟩
        exact ⟨hsave, by omega, by omega⟩
      · rintro ⟨hsave, hlen, hmax⟩
        exact ⟨hsave, by omega, by omega⟩

/-- C6: within a session, a cascade writes region artifacts on exactly
the frames whose detection count strictly exceeds the session's previous
high-water mark (and only when saving is enabled); the file indices used
across the session are strictly increasing — continuing from `written`,
so earlier saved images are never overwritten — `written` is bumped by
the new high-water mark on every writing frame; and for the count
sequence [1, 1, 3, 2, 3] the writes happen exactly at frame 0 (index 0)
and frame 2 (indices 1, 2, 3), frame 4 writing nothing. -/
theorem cascade_write_dedup (name : String) (params : DetectParams) (save : Bool)
    (counts : List Nat) :
    (∀ j, (∃ wr ∈ (cascadeRun save ⟨name, params, 0, 0⟩ counts).2, wr.frame = j) ↔
      (save = true ∧ j < counts.length ∧ prefixMax counts j < counts.getD j 0)) ∧
    List.Sorted (· < ·)
      (((cascadeRun save ⟨name, params, 0, 0⟩ counts).2).map ArtifactWrite.fileIndex) ∧
    (∀ (c : Cascade) (idx count : Nat), 0 < count → c.found < count →
      (cascadeStep true idx count c).1.written = c.written + count) ∧
    (cascadeRun true ⟨name, params, 0, 0⟩ [1, 1, 3, 2, 3]).2 =
      [⟨name, 0, 0⟩, ⟨name, 2, 1⟩, ⟨name, 2, 2⟩, ⟨name, 2, 3⟩] := by
  refine ⟨?_, (cascadeRunFrom_bounds save counts 0 _).1, ?_, ?_⟩
  · intro j
    have h := cascadeRunFrom_frames save counts 0 ⟨name, params, 0, 0⟩ j
    simpa using h
  · intro c idx count hpos hfound
    unfold cascadeStep
    simp [hpos, hfound]
  · rfl

theorem cascade_write_dedup_witness :
    (cascadeRun true ⟨"face", DetectParams.zero, 0, 0⟩ [1, 1, 3, 2, 3]).2 =
      [⟨"face", 0, 0⟩, ⟨"face", 2, 1⟩, ⟨"face", 2, 2⟩, ⟨"face", 2, 3⟩] ∧
    (cascadeStep true 0 1 (⟨"face", DetectParams.zero, 0, 0⟩ : Cascade)).1.written = 0 + 1 :=
  ⟨(cascade_write_dedup "face" DetectParams.zero true [1, 1, 3, 2, 3]).2.2.2,
    (cascade_write_dedup "face" DetectParams.zero true [1, 1, 3, 2, 3]).2.2.1
      ⟨"face", DetectParams.zero, 0, 0⟩ 0 1 (by decide) (by decide)⟩

/-! ## Frame loop behavior (C2, C4, C8) -/

theorem mem_shift_hit (r i k : Nat) (P : Nat → Prop) (hPi : P i) :
    (k = i ∨ (∃ j, j < r ∧ k = (i + 1) + j ∧ P k)) ↔
      (∃ j, j < r + 1 ∧ k = i + j ∧ P k) := by
  constructor
  · rintro (rfl | ⟨j, hj, rfl, hp⟩)
    · exact ⟨0, by omega, by omega, hPi⟩
    · exact ⟨j + 1, by omega, by omega, hp⟩
  · rintro ⟨j, hj, rfl, hp⟩
    cases j with
    | zero => left; omega
    | succ j => exact Or.inr ⟨j, by omega, by omega, hp⟩

theorem mem_shift_miss (r i k : Nat) (P : Nat → Prop) (hPi : ¬ P i) :
    (∃ j, j < r ∧ k = (i + 1) + j ∧ P k) ↔ (∃ j, j < r + 1 ∧ k = i + j ∧ P k) := by
  constructor
  · rintro ⟨j, hj, rfl, hp⟩
    exact ⟨j + 1, by omega, by omega, hp⟩
  · rintro ⟨j, hj, rfl, hp⟩
    cases j with
    | zero => exact absurd (by simpa using hp) hPi
    | succ j => exact ⟨j, by omega, by omega, hp⟩

/-- When every read in range succeeds, the loop runs all `r` iterations
and completes with `(true, nil)`; the skipped-empty log, the video write
log and the write-error log are characterized exactly. -/
theorem frameLoop_complete (cfg : RecorderCfg) (ev : Nat → FrameEvent) :
    ∀ (r i : Nat) (live : Bool) (cs : List Cascade),
      (∀ j, j < r → (ev (i + j)).readOk = true) →
      (frameLoop cfg ev r i live cs).recorded = true ∧
      (frameLoop cfg ev r i live cs).error = none ∧
      (frameLoop cfg ev r i live cs).iterations = r ∧
      (∀ k, k ∈ (frameLoop cfg ev r i live cs).trace.skippedEmpty ↔
        (∃ j, j < r ∧ k = i + j ∧ (ev k).frameEmpty = true)) ∧
      (∀ k, k ∈ (frameLoop cfg ev r i live cs).trace.videoWrites ↔
        (∃ j, j < r ∧ k = i + j ∧ (ev k).frameEmpty = false)) ∧
      (∀ k, k ∈ (frameLoop cfg ev r i live cs).trace.writeErrors ↔
        (∃ j, j < r ∧ k = i + j ∧ (ev k).frameEmpty = false ∧ (ev k).writeFails = true)) := by
  intro r
  induction r with
  | zero =>
    intro i live cs _
    refine ⟨rfl, rfl, rfl, ?_, ?_, ?_⟩ <;> intro k <;>
      simp [frameLoop, SessionTrace.empty]
  | succ r ih =>
    intro i live cs hreads
    have hr0 : (ev i).readOk = true := by simpa using hreads 0 (by omega)
    have hrest : ∀ j, j < r → (ev (i + 1 + j)).readOk = true := by
      intro j hj
      have h := hreads (j + 1) (by omega)
      have heq : i + (j + 1) = i + 1 + j := by omega
      rwa [heq] at h
    cases hE : (ev i).frameEmpty with
    | true =>
      obtain ⟨h1, h2, h3, h4, h5, h6⟩ := ih (i + 1) live cs hrest
      simp only [frameLoop, hr0, hE, Bool.not_true, Bool.true_eq_false, if_true, if_false,
        not_true_eq_false, ite_false, ite_true]
      refine ⟨h1, h2, by simpa using h3, ?_, ?_, ?_⟩ <;> intro k <;>
        simp only [SessionTrace.app, List.singleton_append, List.nil_append, List.mem_cons]
      · rw [h4 k]
        exact mem_shift_hit r i k (fun k => (ev k).frameEmpty = true) hE
      · rw [h5 k]
        exact mem_shift_miss r i k (fun k => (ev k).frameEmpty = false) (by simp [hE])
      · rw [h6 k]
        exact mem_shift_miss r i k
          (fun k => (ev k).frameEmpty = false ∧ (ev k).writeFails = true) (by simp [hE])
    | false =>
      obtain ⟨h1, h2, h3, h4, h5, h6⟩ :=
        ih (i + 1) (if live && isCancelKey (ev i).key then false else live)
          (cascadesStep cfg.width cfg.height cfg.saveDetections i (ev i).detections cs).1 hrest
      simp only [frameLoop, hr0, hE, Bool.not_true, Bool.false_eq_true, if_true, if_false,
        not_true_eq_false, ite_false, ite_true]
      refine ⟨h1, h2, by simpa using h3, ?_, ?_, ?_⟩ <;> intro k <;>
        simp only [SessionTrace.app, List.singleton_append, List.nil_append, List.mem_cons,
          List.mem_append]
      · rw [h4 k]
        exact mem_shift_miss r i k (fun k => (ev k).frameEmpty = true) (by simp [hE])
      · rw [h5 k]
        exact mem_shift_hit r i k (fun k => (ev k).frameEmpty = false) hE
      · cases hW : (ev i).writeFails with
        | true =>
          simp only [hW, List.mem_singleton, ite_true, if_true]
          rw [h6 k]
          exact mem_shift_hit r i k
            (fun k => (ev k).frameEmpty = false ∧ (ev k).writeFails = true) ⟨hE, hW⟩
        | false =>
          simp only [hW, Bool.false_eq_true, ite_false, if_false, List.not_mem_nil, false_or]
          rw [h6 k]
          exact mem_shift_miss r i k
            (fun k => (ev k).frameEmpty = false ∧ (ev k).writeFails = true) (by simp [hW])

/-- A steady collaborator frame: read ok, non-empty, write ok, no
detections, no key pressed (gocv WaitKey reports -1 then). -/
def steadyFrame : FrameEvent :=
  ⟨true, false, false, [], -1⟩

theorem exists_from_zero (r k : Nat) (P : Nat → Prop) :
    (∃ j, j < r ∧ k = 0 + j ∧ P k) ↔ (k < r ∧ P k) := by
  constructor
  · rintro ⟨j, hj, rfl, hp⟩
    exact ⟨by omega, hp⟩
  · rintro ⟨hk, hp⟩
    exact ⟨k, hk, by omega, hp⟩

/-- C2 (amended): during the frame loop an empty single-frame read is
logged and that iteration is skipped (no video append), a single video
write failure is logged and the iteration degraded, and in both cases
the session still runs to completion and returns `(true, nil)` —
provided every read call itself succeeds. (A read call returning false,
the device having closed, is fatal: it aborts the session with an error,
see the counterexample.) -/
theorem recordVideo_transient_failures_nonfatal (env : CameraEnv) (fps seconds : ℚ)
    (liveView : Bool) (w ht : Int) (save : Bool) (cs : List Cascade)
    (hAcq : env.tryAcquireOk = true) (hOpen : env.openOk = true) (hWr : env.writerOk = true)
    (hReads : ∀ j, j < (goRound (fps * seconds)).toNat → (env.events j).readOk = true) :
    (RecordVideoToDisk env fps seconds liveView w ht save cs).recorded = true ∧
    (RecordVideoToDisk env fps seconds liveView w ht save cs).error = none ∧
    (RecordVideoToDisk env fps seconds liveView w ht save cs).iterations =
      (goRound (fps * seconds)).toNat ∧
    (∀ k, k ∈ (RecordVideoToDisk env fps seconds liveView w ht save cs).trace.skippedEmpty ↔
      (k < (goRound (fps * seconds)).toNat ∧ (env.events k).frameEmpty = true)) ∧
    (∀ k, k ∈ (RecordVideoToDisk env fps seconds liveView w ht save cs).trace.videoWrites ↔
      (k < (goRound (fps * seconds)).toNat ∧ (env.events k).frameEmpty = false)) ∧
    (∀ k, k ∈ (RecordVideoToDisk env fps seconds liveView w ht save cs).trace.writeErrors ↔
      (k < (goRound (fps * seconds)).toNat ∧ (env.events k).frameEmpty = false ∧
        (env.events k).writeFails = true)) := by
  have hrw : RecordVideoToDisk env fps seconds liveView w ht save cs =
      frameLoop ⟨(goRound (fps * seconds)).toNat, w, ht, save⟩ env.events
        (goRound (fps * seconds)).toNat 0 liveView cs := by
    simp [RecordVideoToDisk, hAcq, hOpen, hWr]
  obtain ⟨h1, h2, h3, h4, h5, h6⟩ :=
    frameLoop_complete ⟨(goRound (fps * seconds)).toNat, w, ht, save⟩ env.events
      (goRound (fps * seconds)).toNat 0 liveView cs
      (by intro j hj; simpa using hReads j hj)
  rw [hrw]
  refine ⟨h1, h2, h3, ?_, ?_, ?_⟩ <;> intro k
  · rw [h4 k]
    exact exists_from_zero _ k (fun k => (env.events k).frameEmpty = true)
  · rw [h5 k]
    exact exists_from_zero _ k (fun k => (env.events k).frameEmpty = false)
  · rw [h6 k]
    exact exists_from_zero _ k
      (fun k => (env.events k).frameEmpty = false ∧ (env.events k).writeFails = true)

/-- A session whose third frame comes back empty and whose sixth video
write fails, with every read succeeding. -/
def transientEnv : CameraEnv :=
  ⟨true, true, true, fun i =>
    if i = 3 then { steadyFrame with frameEmpty := true }
    else if i = 5 then { steadyFrame with writeFails := true }
    else steadyFrame⟩

theorem recordVideo_transient_failures_nonfatal_witness :
    (RecordVideoToDisk transientEnv 10 2 false 640 480 false []).recorded = true ∧
    (RecordVideoToDisk transientEnv 10 2 false 640 480 false []).error = none ∧
    (RecordVideoToDisk transientEnv 10 2 false 640 480 false []).iterations =
      (goRound ((10 : ℚ) * 2)).toNat := by
  have h := recordVideo_transient_failures_nonfatal transientEnv 10 2 false 640 480 false []
    rfl rfl rfl (by intro j hj; simp only [transientEnv]; split_ifs <;> rfl)
  exact ⟨h.1, h.2.1, h.2.2.1⟩

/-- A session whose second read fails (device closed mid-session). -/
def readFailAfterOneEnv : CameraEnv :=
  ⟨true, true, true, fun i =>
    if i = 0 then steadyFrame else { steadyFrame with readOk := false }⟩

/-- C2 counterexample: with a 20-frame budget, a failed read on the
second iteration makes `RecordVideoToDisk` return `(false, error)` after
2 iterations — the session aborts instead of continuing, refuting the
claim that a failed single-frame read is merely skipped. -/
theorem recordVideo_failed_read_aborts :
    (RecordVideoToDisk readFailAfterOneEnv 10 2 false 640 480 false []).recorded = false ∧
    (RecordVideoToDisk readFailAfterOneEnv 10 2 false 640 480 false []).error =
      some CamError.readFailed ∧
    (RecordVideoToDisk readFailAfterOneEnv 10 2 false 640 480 false []).iterations = 2 ∧
    (goRound ((10 : ℚ) * 2)).toNat = 20 := by
  have hfc : (goRound ((10 : ℚ) * 2)).toNat = 20 := by
    rw [goRound]
    norm_num
    decide
  have hrw : RecordVideoToDisk readFailAfterOneEnv 10 2 false 640 480 false [] =
      frameLoop ⟨20, 640, 480, false⟩ readFailAfterOneEnv.events 20 0 false [] := by
    simp [RecordVideoToDisk, readFailAfterOneEnv, hfc]
  rw [hrw]
  refine ⟨?_, ?_, ?_, hfc⟩ <;> rfl

/-- C4 (amended): provided every read succeeds, a recording session
executes exactly `frameCount = round(fps × seconds)` read-loop
iterations — an iteration whose read returns an empty frame still
consumes one unit of the budget (the iteration count never depends on
emptiness, and nothing is retried) — and 2.0 seconds at 10 fps is
exactly 20 iterations. A failed read, however, ends the loop early (see
the counterexample). -/
theorem recordVideo_frame_budget (env : CameraEnv) (fps seconds : ℚ)
    (liveView : Bool) (w ht : Int) (save : Bool) (cs : List Cascade)
    (hAcq : env.tryAcquireOk = true) (hOpen : env.openOk = true) (hWr : env.writerOk = true)
    (hReads : ∀ j, j < (goRound (fps * seconds)).toNat → (env.events j).readOk = true) :
    (RecordVideoToDisk env fps seconds liveView w ht save cs).iterations =
      (goRound (fps * seconds)).toNat ∧
    (goRound ((10 : ℚ) * 2)).toNat = 20 := by
  have hrw : RecordVideoToDisk env fps seconds liveView w ht save cs =
      frameLoop ⟨(goRound (fps * seconds)).toNat, w, ht, save⟩ env.events
        (goRound (fps * seconds)).toNat 0 liveView cs := by
    simp [RecordVideoToDisk, hAcq, hOpen, hWr]
  refine ⟨?_, by rw [goRound]; norm_num; decide⟩
  rw [hrw]
  exact (frameLoop_complete ⟨(goRound (fps * seconds)).toNat, w, ht, save⟩ env.events
    (goRound (fps * seconds)).toNat 0 liveView cs
    (by intro j hj; simpa using hReads j hj)).2.2.1

/-- A session in which every read succeeds but every frame is empty. -/
def emptyFramesEnv : CameraEnv :=
  ⟨true, true, true, fun _ => { steadyFrame with frameEmpty := true }⟩

theorem recordVideo_frame_budget_witness :
    (RecordVideoToDisk emptyFramesEnv 10 2 false 640 480 false []).iterations =
      (goRound ((10 : ℚ) * 2)).toNat ∧
    (goRound ((10 : ℚ) * 2)).toNat = 20 :=
  recordVideo_frame_budget emptyFramesEnv 10 2 false 640 480 false [] rfl rfl rfl
    (fun _ _ => rfl)

/-- A session whose very first read fails. -/
def readFailAtZeroEnv : CameraEnv :=
  ⟨true, true, true, fun _ => { steadyFrame with readOk := false }⟩

/-- C4 counterexample: with `seconds = 2.0` and `fps = 10` the budget is
20, but when the first read fails the session executes exactly one
read-loop iteration, not 20 — the "exactly frameCount iterations" claim
does not hold unconditionally. -/
theorem recordVideo_read_failure_cuts_budget :
    (goRound ((10 : ℚ) * 2)).toNat = 20 ∧
    (RecordVideoToDisk readFailAtZeroEnv 10 2 false 640 480 false []).iterations = 1 ∧
    (RecordVideoToDisk readFailAtZeroEnv 10 2 false 640 480 false []).iterations ≠
      (goRound ((10 : ℚ) * 2)).toNat := by
  have hfc : (goRound ((10 : ℚ) * 2)).toNat = 20 := by
    rw [goRound]
    norm_num
    decide
  have hrw : RecordVideoToDisk readFailAtZeroEnv 10 2 false 640 480 false [] =
      frameLoop ⟨20, 640, 480, false⟩ readFailAtZeroEnv.events 20 0 false [] := by
    simp [RecordVideoToDisk, readFailAtZeroEnv, hfc]
  rw [hrw, hfc]
  refine ⟨rfl, rfl, by decide⟩

/-- Everything a frame event carries except the polled key. -/
def FrameEvent.sansKey (e : FrameEvent) : Bool × Bool × Bool × List Nat :=
  (e.readOk, e.frameEmpty, e.writeFails, e.detections)

/-- Everything a session trace records except the displayed frames. -/
def SessionTrace.sansDisplay (t : SessionTrace) :
    List Nat × List Nat × List Nat × List (Nat × String) × List EngineCall × List ArtifactWrite :=
  (t.videoWrites, t.writeErrors, t.skippedEmpty, t.stills, t.engineCalls, t.artifacts)

theorem sansDisplay_app (a b : SessionTrace) :
    (SessionTrace.app a b).sansDisplay =
      (a.videoWrites ++ b.sansDisplay.1, a.writeErrors ++ b.sansDisplay.2.1,
        a.skippedEmpty ++ b.sansDisplay.2.2.1, a.stills ++ b.sansDisplay.2.2.2.1,
        a.engineCalls ++ b.sansDisplay.2.2.2.2.1, a.artifacts ++ b.sansDisplay.2.2.2.2.2) :=
  rfl

/-- The keys polled from the preview window never influence anything but
the displayed frames: two runs whose frame events agree except on keys —
and with any live-view states — return the same result, run the same
number of iterations, and produce the same writes, stills, engine calls
and artifacts. -/
theorem frameLoop_keys_irrelevant (cfg : RecorderCfg) (ev ev' : Nat → FrameEvent)
    (hev : ∀ i, (ev i).sansKey = (ev' i).sansKey) :
    ∀ (r i : Nat) (live live' : Bool) (cs : List Cascade),
      (frameLoop cfg ev r i live cs).recorded = (frameLoop cfg ev' r i live' cs).recorded ∧
      (frameLoop cfg ev r i live cs).error = (frameLoop cfg ev' r i live' cs).error ∧
      (frameLoop cfg ev r i live cs).iterations = (frameLoop cfg ev' r i live' cs).iterations ∧
      (frameLoop cfg ev r i live cs).trace.sansDisplay =
        (frameLoop cfg ev' r i live' cs).trace.sansDisplay ∧
      (frameLoop cfg ev r i live cs).cascades = (frameLoop cfg ev' r i live' cs).cascades := by
  intro r
  induction r with
  | zero =>
    intro i live live' cs
    exact ⟨rfl, rfl, rfl, rfl, rfl⟩
  | succ r ih =>
    intro i live live' cs
    have h := hev i
    have hro : (ev i).readOk = (ev' i).readOk := congrArg (fun t => t.1) h
    have hfe : (ev i).frameEmpty = (ev' i).frameEmpty := congrArg (fun t => t.2.1) h
    have hwf : (ev i).writeFails = (ev' i).writeFails := congrArg (fun t => t.2.2.1) h
    have hdet : (ev i).detections = (ev' i).detections := congrArg (fun t => t.2.2.2) h
    cases hR : (ev i).readOk with
    | false =>
      have hR' : (ev' i).readOk = false := hro ▸ hR
      simp only [frameLoop, hR, hR', Bool.false_eq_true, not_false_iff, if_true, ite_true]
      exact ⟨trivial, trivial, trivial, trivial, trivial⟩
    | true =>
      have hR' : (ev' i).readOk = true := hro ▸ hR
      cases hE : (ev i).frameEmpty with
      | true =>
        have hE' : (ev' i).frameEmpty = true := hfe ▸ hE
        obtain ⟨h1, h2, h3, h4, h5⟩ := ih (i + 1) live live' cs
        simp only [frameLoop, hR, hR', hE, hE', Bool.true_eq_false, not_true_eq_false,
          if_false, ite_true, ite_false]
        refine ⟨h1, h2, by rw [h3], ?_, h5⟩
        rw [sansDisplay_app, sansDisplay_app, h4]
      | false =>
        have hE' : (ev' i).frameEmpty = false := hfe ▸ hE
        obtain ⟨h1, h2, h3, h4, h5⟩ :=
          ih (i + 1) (if live && isCancelKey (ev i).key then false else live)
            (if live' && isCancelKey ((ev' i)).key then false else live')
            (cascadesStep cfg.width cfg.height cfg.saveDetections i (ev i).detections cs).1
        simp only [frameLoop, hR, hR', hE, hE', Bool.false_eq_true, not_true_eq_false,
          if_false, ite_true, ite_false]
        rw [← hdet, ← hwf]
        refine ⟨h1, h2, by rw [h3], ?_, h5⟩
        rw [sansDisplay_app, sansDisplay_app, h4]

theorem frameLoop_display_off (cfg : RecorderCfg) (ev : Nat → FrameEvent) :
    ∀ (r i : Nat) (cs : List Cascade),
      (frameLoop cfg ev r i false cs).trace.displayed = [] := by
  intro r
  induction r with
  | zero =>
    intro i cs
    rfl
  | succ r ih =>
    intro i cs
    cases hR : (ev i).readOk with
    | false =>
      simp only [frameLoop, hR, Bool.false_eq_true, not_false_iff, if_true, ite_true]
      rfl
    | true =>
      cases hE : (ev i).frameEmpty with
      | true =>
        simp only [frameLoop, hR, hE, Bool.true_eq_false, not_true_eq_false, if_false,
          ite_true, ite_false]
        simpa [SessionTrace.app] using ih (i + 1) cs
      | false =>
        simp only [frameLoop, hR, hE, Bool.false_eq_true, not_true_eq_false, if_false,
          ite_true, ite_false, Bool.false_and]
        simpa [SessionTrace.app] using ih (i + 1) _

theorem frameLoop_display_ge (cfg : RecorderCfg) (ev : Nat → FrameEvent) :
    ∀ (r i : Nat) (live : Bool) (cs : List Cascade) (k : Nat),
      k ∈ (frameLoop cfg ev r i live cs).trace.displayed → i ≤ k := by
  intro r
  induction r with
  | zero =>
    intro i live cs k hk
    simp [frameLoop, SessionTrace.empty] at hk
  | succ r ih =>
    intro i live cs k hk
    cases hR : (ev i).readOk with
    | false =>
      simp only [frameLoop, hR, Bool.false_eq_true, not_false_iff, if_true, ite_true] at hk
      simp [SessionTrace.empty] at hk
    | true =>
      cases hE : (ev i).frameEmpty with
      | true =>
        simp only [frameLoop, hR, hE, Bool.true_eq_false, not_true_eq_false, if_false,
          ite_true, ite_false, SessionTrace.app, List.nil_append] at hk
        exact le_trans (Nat.le_succ i) (ih (i + 1) live cs k hk)
      | false =>
        simp only [frameLoop, hR, hE, Bool.false_eq_true, not_true_eq_false, if_false,
          ite_true, ite_false, SessionTrace.app, List.mem_append] at hk
        rcases hk with hk | hk
        · rcases (by split at hk <;> simp_all : k = i) with rfl
          exact le_refl k
        · exact le_trans (Nat.le_succ i) (ih (i + 1) _ _ k hk)

theorem frameLoop_display_cancel (cfg : RecorderCfg) (ev : Nat → FrameEvent) :
    ∀ (r i : Nat) (live : Bool) (cs : List Cascade) (k : Nat),
      k ∈ (frameLoop cfg ev r i live cs).trace.displayed →
      isCancelKey (ev k).key = true →
      ∀ k2 ∈ (frameLoop cfg ev r i live cs).trace.displayed, k2 ≤ k := by
  intro r
  induction r with
  | zero =>
    intro i live cs k hk
    simp [frameLoop, SessionTrace.empty] at hk
  | succ r ih =>
    intro i live cs k hk hkey k2 hk2
    cases hR : (ev i).readOk with
    | false =>
      simp only [frameLoop, hR, Bool.false_eq_true, not_false_iff, if_true, ite_true] at hk
      simp [SessionTrace.empty] at hk
    | true =>
      cases hE : (ev i).frameEmpty with
      | true =>
        simp only [frameLoop, hR, hE, Bool.true_eq_false, not_true_eq_false, if_false,
          ite_true, ite_false, SessionTrace.app, List.nil_append] at hk hk2
        exact ih (i + 1) live cs k hk hkey k2 hk2
      | false =>
        cases live with
        | false =>
          simp only [frameLoop, hR, hE, Bool.false_eq_true, not_true_eq_false, if_false,
            ite_true, ite_false, Bool.false_and, SessionTrace.app, List.nil_append] at hk
          rw [frameLoop_display_off cfg ev r (i + 1) _] at hk
          simp at hk
        | true =>
          simp only [frameLoop, hR, hE, Bool.false_eq_true, not_true_eq_false, if_false,
            ite_true, ite_false, Bool.true_and, SessionTrace.app, List.singleton_append,
            List.mem_cons] at hk hk2
          rcases hk with rfl | hk
          · have hlive1 : (if isCancelKey (ev k).key then false else true) = false := by
              simp [hkey]
            rw [hlive1, frameLoop_display_off cfg ev r (k + 1) _] at hk2
            rcases hk2 with rfl | hk2
            · omega
            · simp at hk2
          · have hik : i + 1 ≤ k := frameLoop_display_ge cfg ev r (i + 1) _ _ k hk
            rcases hk2 with rfl | hk2
            · omega
            · exact ih (i + 1) _ _ k hk hkey k2 hk2

/-- C8: pressing a cancel key (escape, q or Q) during live preview ends
only the live-preview rendering: no frame after the cancelling one is
displayed, while the `(recorded, error)` result, the number of loop
iterations, and every video write, write-error log, skipped frame,
snapshot, engine call and artifact are exactly those of the same run
with different (or no) key presses — the frame loop still runs through
its full frame-count budget and the session result is unaffected. -/
theorem recordVideo_cancel_stops_preview_only (env env' : CameraEnv) (fps seconds : ℚ)
    (liveView : Bool) (w ht : Int) (save : Bool) (cs : List Cascade)
    (hA : env.tryAcquireOk = env'.tryAcquireOk) (hO : env.openOk = env'.openOk)
    (hW : env.writerOk = env'.writerOk)
    (hev : ∀ i, (env.events i).sansKey = (env'.events i).sansKey) :
    ((RecordVideoToDisk env fps seconds liveView w ht save cs).recorded =
        (RecordVideoToDisk env' fps seconds liveView w ht save cs).recorded ∧
      (RecordVideoToDisk env fps seconds liveView w ht save cs).error =
        (RecordVideoToDisk env' fps seconds liveView w ht save cs).error ∧
      (RecordVideoToDisk env fps seconds liveView w ht save cs).iterations =
        (RecordVideoToDisk env' fps seconds liveView w ht save cs).iterations ∧
      (RecordVideoToDisk env fps seconds liveView w ht save cs).trace.sansDisplay =
        (RecordVideoToDisk env' fps seconds liveView w ht save cs).trace.sansDisplay) ∧
    (∀ k, k ∈ (RecordVideoToDisk env fps seconds liveView w ht save cs).trace.displayed →
      isCancelKey ((env.events k).key) = true →
      ∀ k2 ∈ (RecordVideoToDisk env fps seconds liveView w ht save cs).trace.displayed,
        k2 ≤ k) := by
  cases hacq : env.tryAcquireOk with
  | false =>
    have hacq2 : env'.tryAcquireOk = false := by rw [← hA]; exact hacq
    constructor
    · simp [RecordVideoToDisk, hacq, hacq2]
    · intro k hk
      simp [RecordVideoToDisk, hacq, SessionTrace.empty] at hk
  | true =>
    have hacq2 : env'.tryAcquireOk = true := by rw [← hA]; exact hacq
    cases hopen : env.openOk with
    | false =>
      have hopen2 : env'.openOk = false := by rw [← hO]; exact hopen
      constructor
      · simp [RecordVideoToDisk, hacq, hacq2, hopen, hopen2]
      · intro k hk
        simp [RecordVideoToDisk, hacq, hopen, SessionTrace.empty] at hk
    | true =>
      have hopen2 : env'.openOk = true := by rw [← hO]; exact hopen
      cases hwr : env.writerOk with
      | false =>
        have hwr2 : env'.writerOk = false := by rw [← hW]; exact hwr
        constructor
        · simp [RecordVideoToDisk, hacq, hacq2, hopen, hopen2, hwr, hwr2]
        · intro k hk
          simp [RecordVideoToDisk, hacq, hopen, hwr, SessionTrace.empty] at hk
      | true =>
        have hwr2 : env'.writerOk = true := by rw [← hW]; exact hwr
        have hrw : RecordVideoToDisk env fps seconds liveView w ht save cs =
            frameLoop ⟨(goRound (fps * seconds)).toNat, w, ht, save⟩ env.events
              (goRound (fps * seconds)).toNat 0 liveView cs := by
          simp [RecordVideoToDisk, hacq, hopen, hwr]
        have hrw2 : RecordVideoToDisk env' fps seconds liveView w ht save cs =
            frameLoop ⟨(goRound (fps * seconds)).toNat, w, ht, save⟩ env'.events
              (goRound (fps * seconds)).toNat 0 liveView cs := by
          simp [RecordVideoToDisk, hacq2, hopen2, hwr2]
        rw [hrw, hrw2]
        obtain ⟨h1, h2, h3, h4, _⟩ :=
          frameLoop_keys_irrelevant ⟨(goRound (fps * seconds)).toNat, w, ht, save⟩
            env.events env'.events hev (goRound (fps * seconds)).toNat 0 liveView liveView cs
        exact ⟨⟨h1, h2, h3, h4⟩,
          fun k hk hkey k2 hk2 =>
            frameLoop_display_cancel ⟨(goRound (fps * seconds)).toNat, w, ht, save⟩
              env.events (goRound (fps * seconds)).toNat 0 liveView cs k hk hkey k2 hk2⟩

/-- A live-view session in which the operator presses escape while the
second frame is shown. -/
def cancelKeyEnv : CameraEnv :=
  ⟨true, true, true, fun i => if i = 1 then { steadyFrame with key := 27 } else steadyFrame⟩

/-- The same session with no key ever pressed. -/
def noKeyEnv : CameraEnv :=
  ⟨true, true, true, fun _ => steadyFrame⟩

theorem recordVideo_cancel_stops_preview_only_witness :
    (RecordVideoToDisk cancelKeyEnv 1 3 true 640 480 false []).recorded =
      (RecordVideoToDisk noKeyEnv 1 3 true 640 480 false []).recorded ∧
    (RecordVideoToDisk cancelKeyEnv 1 3 true 640 480 false []).error =
      (RecordVideoToDisk noKeyEnv 1 3 true 640 480 false []).error ∧
    (RecordVideoToDisk cancelKeyEnv 1 3 true 640 480 false []).iterations =
      (RecordVideoToDisk noKeyEnv 1 3 true 640 480 false []).iterations ∧
    (RecordVideoToDisk cancelKeyEnv 1 3 true 640 480 false []).trace.sansDisplay =
      (RecordVideoToDisk noKeyEnv 1 3 true 640 480 false []).trace.sansDisplay :=
  (recordVideo_cancel_stops_preview_only cancelKeyEnv noKeyEnv 1 3 true 640 480 false []
    rfl rfl rfl
    (by intro i
        by_cases h : i = 1 <;>
          simp [cancelKeyEnv, noKeyEnv, h, steadyFrame, FrameEvent.sansKey])).1

/-! ## Session teardown (Close and safeClose, pkg/camera) -/

/-- What happens when `Close()` is invoked on one underlying resource. -/
inductive CloseOutcome where
  | ok
  | errored
  | panicked
deriving Repr, DecidableEq

/-- The record of one isolated release step: which resource, whether a
`Close()` call was actually made (`safeClose` returns early on a nil
closer), and the log line produced when the close errored or panicked. -/
structure ReleaseRecord where
  name : String
  attempted : Bool
  fault : Option String
deriving Repr, DecidableEq

/-- `func safeClose(c io.Closer)`: returns early on nil, otherwise calls
`c.Close()` under a deferred `recover()`; an error is logged, a panic is
recovered and logged, and nothing propagates to the caller. -/
def safeClose (name : String) : Option CloseOutcome → ReleaseRecord
  | none => ⟨name, false, none⟩
  | some .ok => ⟨name, true, none⟩
  | some .errored => ⟨name, true, some "error while attempting to close"⟩
  | some .panicked => ⟨name, true, some "recovered from panic"⟩

/-- The resources a `Recorder` holds at session close, each with the
outcome its `Close()` would have (`none` models a nil closer), plus the
live-view flag that guards closing the preview window. -/
structure RecorderResources where
  frame : Option CloseOutcome
  processFrame : Option CloseOutcome
  webcam : Option CloseOutcome
  writer : Option CloseOutcome
  cascades : List CloseOutcome
  window : Option CloseOutcome
  liveView : Bool
deriving Repr, DecidableEq

/-- `func (recorder *Recorder) Close()`: release every resource through
its own isolated `safeClose` step, in source order — frame buffer,
working buffer, capture device, video writer, each cascade classifier
handle, and the preview window when the live view is on. -/
def Close (res : RecorderResources) : List ReleaseRecord :=
  [safeClose "frame" res.frame, safeClose "processFrame" res.processFrame,
    safeClose "webcam" res.webcam, safeClose "writer" res.writer]
  ++ res.cascades.map (fun o => safeClose "classifier" (some o))
  ++ (if res.liveView then [safeClose "window" res.window] else [])

theorem safeClose_name (n : String) (o : Option CloseOutcome) : (safeClose n o).name = n := by
  cases o with
  | none => rfl
  | some v => cases v <;> rfl

theorem safeClose_attempted (n : String) (o : Option CloseOutcome) :
    (safeClose n o).attempted = o.isSome := by
  cases o with
  | none => rfl
  | some v => cases v <;> rfl

theorem map_safeClose_classifier (cs : List CloseOutcome) :
    (cs.map (fun o => safeClose "classifier" (some o))).map
        (fun rec => (rec.name, rec.attempted)) =
      List.replicate cs.length ("classifier", true) := by
  induction cs with
  | nil => rfl
  | cons o rest ih =>
    cases o <;> simp only [List.map_cons, List.replicate_succ] <;>
      exact congrArg₂ List.cons rfl ih

/-- C9: at session close every held resource gets its own isolated
release step: the sequence of release steps (resource name, and whether a
real `Close()` call was made) depends only on which resources exist and
the live-view flag — never on how any individual release turns out — so
an error or panic while releasing one resource is logged in that step
only, never propagates (the return carries log records, not an error),
and never prevents releasing the remaining resources. -/
theorem close_releases_all_independently (res : RecorderResources) :
    (Close res).map (fun rec => (rec.name, rec.attempted)) =
      ([("frame", res.frame.isSome), ("processFrame", res.processFrame.isSome),
        ("webcam", res.webcam.isSome), ("writer", res.writer.isSome)]
        ++ List.replicate res.cascades.length ("classifier", true)
        ++ (if res.liveView then [("window", res.window.isSome)] else [])) ∧
    (Close res).length =
      4 + res.cascades.length + (if res.liveView then 1 else 0) := by
  constructor
  · simp only [Close, List.map_append, List.map_cons, List.map_nil,
      map_safeClose_classifier, safeClose_name, safeClose_attempted]
    by_cases hl : res.liveView <;>
      simp [hl, safeClose_name, safeClose_attempted]
  · by_cases hl : res.liveView <;>
      simp [Close, hl] <;> omega

/-! ## Single-flight guard (C5) -/

/-- C5: when a recording session is already active, the non-blocking
`TryAcquire(1)` fails and the second `RecordVideoToDisk` call is rejected
immediately with `(recorded = false, error = nil)`: no loop iteration
runs and no observable side effect is produced — nothing blocks or
queues. -/
theorem recordVideoToDisk_busy_rejected (env : CameraEnv) (fps seconds : ℚ)
    (liveView : Bool) (w ht : Int) (save : Bool) (cs : List Cascade)
    (hBusy : env.tryAcquireOk = false) :
    RecordVideoToDisk env fps seconds liveView w ht save cs =
      { recorded := false, error := none, iterations := 0, trace := .empty,
        liveView := liveView, cascades := cs } := by
  simp [RecordVideoToDisk, hBusy]

/-- A call made while another recording holds the camera semaphore. -/
def busyEnv : CameraEnv :=
  ⟨false, true, true, fun _ => steadyFrame⟩

theorem recordVideoToDisk_busy_rejected_witness :
    busyEnv.tryAcquireOk = false ∧
      RecordVideoToDisk busyEnv 10 2 false 640 480 false [] =
        { recorded := false, error := none, iterations := 0, trace := .empty,
          liveView := false, cascades := [] } :=
  ⟨rfl, recordVideoToDisk_busy_rejected busyEnv 10 2 false 640 480 false [] rfl⟩

end LossPrevention
